import Mathlib

/-!
Verification of the dashboard-ui data-synchronization core.

This file gives a shallow embedding, in Lean, of the client-side
data-synchronization subsystem of the dashboard-ui repository:

* the local cache store (src/services/storage.js),
* the push-channel (WebSocket) client (src/services/websocket.js),
* the remote data gateway (src/services/api.js and src/config/api.js),
* the dashboard data synchronizer hook (src/hooks/useDashboardData.js),
* the profile coordinator hook (src/hooks/useProfile.js).

JavaScript values that matter to the verified behavior (JSON payloads,
truthiness, the JSON.stringify round trip through localStorage) are
modelled explicitly.  Asynchronous code is modelled as explicit state
passing and, for the synchronizer, as a step relation on a loop state.
-/

namespace DashboardUI

/-! ## JavaScript value model -/

/-- Model of a JavaScript/JSON value as it appears in payloads.  The
constructor names follow JSON: null, booleans, numbers (as rationals,
which are exact for every numeric literal in the sources), strings,
arrays and objects (ordered field lists, as in a JS object literal). -/
inductive Js where
  | null : Js
  | bool : Bool → Js
  | num : ℚ → Js
  | str : String → Js
  | arr : List Js → Js
  | obj : List (String × Js) → Js
  deriving Repr

/-- JavaScript truthiness of a value: null, false, 0 and the empty
string are falsy; every array and object is truthy. -/
def Js.truthy : Js → Bool
  | .null => false
  | .bool b => b
  | .num q => decide (q ≠ 0)
  | .str s => decide (s ≠ "")
  | .arr _ => true
  | .obj _ => true

/-- Field access a?.k on a value: the field value when the value is an
object that has the field, otherwise null (JS would give undefined;
undefined and null behave identically in every use modelled here:
both are falsy and both lack fields). -/
def Js.get : Js → String → Js
  | .obj fs, k => ((fs.find? (fun p => p.1 = k)).map Prod.snd).getD .null
  | _, _ => .null

/-- Test whether a value is an object literal carrying a given key
(the JS test: value is truthy, typeof value is object, and key in
value).  Arrays are typeof object in JS but never carry the keys
tested in these sources, and null is excluded by the truthiness
guard, so only object literals qualify. -/
def Js.hasKey : Js → String → Bool
  | .obj fs, k => fs.any (fun p => p.1 = k)
  | _, _ => false

/-- The JS expression a || b: a when a is truthy, otherwise b. -/
def jsOr (a b : Js) : Js := if a.truthy then a else b

/-! ## Local cache store (src/services/storage.js)

localStorage is modelled as an association list from string keys to
stored entries; the value type of cached data is a parameter.  The
store is modelled as available (the isLocalStorageAvailable branches
that bail out when the browser denies storage are not reachable in
the scenarios the claims quantify over, and every claim is about the
available-storage behavior). -/

/-- A JavaScript number used as a time-to-live: either a finite
number or Infinity.  CACHE_TTL_DASHBOARD is the finite 60000,
CACHE_TTL_PROFILE is Infinity. -/
inductive JsNumber where
  | fin : ℚ → JsNumber
  | inf : JsNumber
  deriving Repr, DecidableEq

/-- The ttl field of a cache entry after the JSON.stringify /
JSON.parse round trip through localStorage.  JSON cannot represent
Infinity: JSON.stringify serializes Infinity as null, so a parsed
entry carries either a finite number or null, never Infinity. -/
inductive StoredTtl where
  | num : ℚ → StoredTtl
  | null : StoredTtl
  deriving Repr, DecidableEq

/-- JSON.stringify on the ttl number: finite numbers survive, and
Infinity becomes null (Infinity is not representable in JSON). -/
def jsonTtl : JsNumber → StoredTtl
  | .fin q => .num q
  | .inf => .null

/-- A cache entry as stored in localStorage: data, creation
timestamp (milliseconds) and the round-tripped ttl field. -/
structure StoredEntry (α : Type) where
  data : α
  timestamp : ℤ
  ttl : StoredTtl
  deriving Repr, DecidableEq

/-- The localStorage key-value map restricted to string keys, as an
association list (later bindings shadow nothing: setItem replaces). -/
def Store (α : Type) : Type := List (String × StoredEntry α)

/-- Empty storage. -/
def Store.empty {α : Type} : Store α := []

/-- localStorage.getItem followed by JSON.parse. -/
def Store.getItem {α : Type} (s : Store α) (k : String) : Option (StoredEntry α) :=
  (List.find? (fun p => p.1 = k) s).map Prod.snd

/-- localStorage.setItem: replaces any previous binding of the key. -/
def Store.setItem {α : Type} (s : Store α) (k : String) (e : StoredEntry α) : Store α :=
  (k, e) :: List.filter (fun p => ¬ p.1 = k) s

/-- localStorage.removeItem. -/
def Store.removeItem {α : Type} (s : Store α) (k : String) : Store α :=
  List.filter (fun p => ¬ p.1 = k) s

/-- STORAGE_PREFIX, the namespace for every key of this system. -/
def storagePrefixVal : String := "dashboard_ui_"

/-- getNamespacedKey. -/
def getNamespacedKey (key : String) : String := storagePrefixVal ++ key

/-- CACHE_KEYS.DASHBOARD_DATA. -/
def keyDashboardData : String := "dashboard_data"

/-- CACHE_KEYS.PROFILE_CURRENT. -/
def keyProfileCurrent : String := "profile_current"

/-- CACHE_KEYS.PROFILE_HISTORY. -/
def keyProfileHistory : String := "profile_history"

/-- CACHE_KEYS.LAST_VALID_DATA. -/
def keyLastValidData : String := "last_valid_data"

/-- CACHE_TTL_DASHBOARD = 60000 milliseconds. -/
def cacheTtlDashboard : JsNumber := .fin 60000

/-- CACHE_TTL_PROFILE = Infinity. -/
def cacheTtlProfile : JsNumber := .inf

/-- The JS comparison age > cacheEntry.ttl on a parsed entry.  When
the stored ttl is a number this is the numeric comparison; when it is
null, JS coerces null to 0, so the comparison is age > 0. -/
def ttlExceeded (age : ℤ) : StoredTtl → Bool
  | .num q => decide ((age : ℚ) > q)
  | .null => decide (age > 0)

/-- Expiry test getFromCache and cleanupExpiredCache apply to a parsed
entry at time now.  The source first tests ttl !== Infinity; a parsed
entry never holds Infinity (see jsonTtl), so that test is always true
and the age comparison always runs. -/
def entryExpired {α : Type} (now : ℤ) (e : StoredEntry α) : Bool :=
  ttlExceeded (now - e.timestamp) e.ttl

/-- getFromCache: reads the namespaced key, returns null when absent,
deletes the entry and returns null when expired, otherwise returns
the stored data.  Returns the read result together with the possibly
updated store. -/
def getFromCache {α : Type} (now : ℤ) (key : String) (s : Store α) :
    Option α × Store α :=
  let nk := getNamespacedKey key
  match s.getItem nk with
  | none => (none, s)
  | some e =>
    if entryExpired now e then (none, s.removeItem nk)
    else (some e.data, s)

/-- cleanupExpiredCache: removes every expired entry whose key lies
under the namespace, returning the removal count and the new store. -/
def cleanupExpiredCache {α : Type} (now : ℤ) (s : Store α) : ℕ × Store α :=
  let doomed : String × StoredEntry α → Bool :=
    fun p => p.1.startsWith storagePrefixVal && entryExpired now p.2
  ((List.filter doomed s).length, List.filter (fun p => ¬ doomed p) s)

/-- Outcome of one localStorage.setItem call: success, a
QuotaExceededError, or any other storage/serialization error. -/
inductive SetOutcome where
  | ok : SetOutcome
  | quotaExceeded : SetOutcome
  | otherError : SetOutcome
  deriving Repr, DecidableEq

/-- saveToCache: builds the entry (stamping now, serializing the ttl
through JSON) and writes it.  The first argument is the outcome of
the first setItem attempt and the second the outcome of the retry
performed after a quota error; on a quota error the store first
evicts expired namespaced entries and retries exactly once; every
error is converted to a false result, never thrown.  Returns the
boolean result and the resulting store. -/
def saveToCache {α : Type} (o1 o2 : SetOutcome) (now : ℤ) (key : String)
    (data : α) (ttl : JsNumber) (s : Store α) : Bool × Store α :=
  let nk := getNamespacedKey key
  let entry : StoredEntry α := ⟨data, now, jsonTtl ttl⟩
  match o1 with
  | .ok => (true, s.setItem nk entry)
  | .quotaExceeded =>
    let cleaned := (cleanupExpiredCache now s).2
    match o2 with
    | .ok => (true, cleaned.setItem nk entry)
    | _ => (false, cleaned)
  | .otherError => (false, s)

/-- clearCache: removes one namespaced entry. -/
def clearCache {α : Type} (key : String) (s : Store α) : Store α :=
  s.removeItem (getNamespacedKey key)

/-! ## Push channel client (src/services/websocket.js)

The WebSocketClient class.  Fields that only drive logging or the
heartbeat ping/pong cycle (heartbeatTimer, lastPongTime, the bound
methods) are outside every claim and are not modelled; the fields
governing connection state and reconnection are carried verbatim. -/

/-- WS_STATES: the four connection states. -/
inductive WSState where
  | disconnected : WSState
  | connecting : WSState
  | connected : WSState
  | error : WSState
  deriving Repr, DecidableEq

/-- The reconnection-relevant instance state of WebSocketClient. -/
structure WSClient where
  state : WSState
  reconnectAttempts : ℕ
  maxReconnectAttempts : ℕ
  reconnectDelay : ℚ
  maxReconnectDelay : ℚ
  reconnectTimerSet : Bool
  shouldReconnect : Bool
  deriving Repr, DecidableEq

/-- The constructor: disconnected, zero attempts, cap of five
attempts, one-second initial delay, thirty-second delay cap,
auto-reconnect disabled until connect is called. -/
def WSClient.init : WSClient :=
  { state := .disconnected
    reconnectAttempts := 0
    maxReconnectAttempts := 5
    reconnectDelay := 1000
    maxReconnectDelay := 30000
    reconnectTimerSet := false
    shouldReconnect := false }

/-- connect(url): a no-op when already connected or connecting;
otherwise enables auto-reconnect and moves to connecting.  The
underlying socket open is driven by the separate open/error/close
events below. -/
def WSClient.connect (c : WSClient) : WSClient :=
  if c.state = .connected ∨ c.state = .connecting then c
  else { c with state := .connecting, shouldReconnect := true }

/-- The open event (handleOpen): state becomes connected, the attempt
counter and the base delay reset. -/
def WSClient.handleOpen (c : WSClient) : WSClient :=
  { c with state := .connected, reconnectAttempts := 0, reconnectDelay := 1000 }

/-- The error event (handleError): state becomes error. -/
def WSClient.handleErrorEvt (c : WSClient) : WSClient :=
  { c with state := .error }

/-- attemptReconnect: when the attempt counter has reached the cap,
emits a max-reconnect-attempts error and schedules nothing (returns
none); otherwise increments the counter and schedules a retry after
min(reconnectDelay * 1.5 ^ (attempts - 1), maxReconnectDelay)
milliseconds (returned as some delay, with the timer marked set). -/
def WSClient.attemptReconnect (c : WSClient) : WSClient × Option ℚ :=
  if c.maxReconnectAttempts ≤ c.reconnectAttempts then (c, none)
  else
    let a := c.reconnectAttempts + 1
    let delay : ℚ := min (c.reconnectDelay * (3 / 2 : ℚ) ^ (a - 1)) c.maxReconnectDelay
    ({ c with reconnectAttempts := a, reconnectTimerSet := true }, some delay)

/-- The close event (handleClose): state becomes disconnected and,
when auto-reconnect is enabled, attemptReconnect runs; the second
component is the delay of the scheduled reconnect attempt, none when
nothing was scheduled. -/
def WSClient.handleClose (c : WSClient) : WSClient × Option ℚ :=
  let c' := { c with state := WSState.disconnected }
  if c'.shouldReconnect then c'.attemptReconnect else (c', none)

/-- disconnect(): disables auto-reconnect, clears the reconnect
timer, and forces the disconnected state. -/
def WSClient.disconnect (c : WSClient) : WSClient :=
  { c with shouldReconnect := false, reconnectTimerSet := false,
           state := .disconnected }

/-- One failed reconnection cycle while disconnected: the reconnect
timer fires and calls connect (moving to connecting), the socket
errors (error event) and closes (close event), and handleClose
schedules the next attempt if any.  Only attemptReconnect and
handleOpen ever touch the attempt counter, so this cycle is the
faithful per-failure step of a disconnection episode. -/
def reconnectFailCycle (c : WSClient) : WSClient × Option ℚ :=
  WSClient.handleClose (WSClient.handleErrorEvt c.connect)

/-- A disconnection episode starting from a live connection c (state
connected after handleOpen): index 0 is the initial unexpected close
and each later index is one more failed reconnection cycle.  The
second component of entry n is the delay scheduled by the (n+1)-th
consecutive failure, none when no attempt was scheduled. -/
def episodeIter (c : WSClient) : ℕ → WSClient × Option ℚ
  | 0 => (c.handleOpen).handleClose
  | n + 1 => reconnectFailCycle (episodeIter c n).1

/-! ## Remote data gateway (src/services/api.js, src/config/api.js) -/

/-- Split a character list at the first occurrence of a needle,
returning the part before and the part after (none when the needle
does not occur; the empty needle occurs at the start). -/
def listSplitFirst (needle : List Char) : List Char → Option (List Char × List Char)
  | [] => if needle.isEmpty then some ([], []) else none
  | c :: rest =>
    if needle.isPrefixOf (c :: rest) then some ([], (c :: rest).drop needle.length)
    else
      match listSplitFirst needle rest with
      | some (pre, post) => some (c :: pre, post)
      | none => none

/-- A JS string.includes test. -/
def jsIncludes (s needle : String) : Bool :=
  (listSplitFirst needle.toList s.toList).isSome

/-- A JS String.replace with a string pattern: replaces only the
first occurrence of the needle. -/
def jsReplaceFirst (s needle repl : String) : String :=
  match listSplitFirst needle.toList s.toList with
  | some (pre, post) => ⟨pre ++ repl.toList ++ post⟩
  | none => s

/-- DEFAULT_HTTP, the hard fallback base URL. -/
def defaultHttpUrl : String := "http://localhost:3001"

/-- JS Set insertion: appends the element unless already present,
preserving insertion order (Array.from of a Set). -/
def setAdd (l : List String) (x : String) : List String :=
  if l.contains x then l else l ++ [x]

/-- buildFallbackUrls (src/config/api.js): the ordered candidate base
URL list: the primary URL (when truthy), then each host substitution
that applies to the primary, then the window-derived candidate (the
protocol//hostname:port value computed from the browser location,
abstracted here as an optional parameter since it comes from a
browser API), and DEFAULT_HTTP when everything else produced nothing. -/
def buildFallbackUrls (primaryUrl : String)
    (replacements : List (String × String))
    (windowCandidate : Option String) : List String :=
  let u0 : List String := if primaryUrl = "" then [] else [primaryUrl]
  let u1 := replacements.foldl
    (fun acc p =>
      if primaryUrl ≠ "" ∧ jsIncludes primaryUrl p.1 then
        setAdd acc (jsReplaceFirst primaryUrl p.1 p.2)
      else acc) u0
  let u2 := match windowCandidate with
    | some w => setAdd u1 w
    | none => u1
  if u2.isEmpty then [defaultHttpUrl] else u2

/-- The replacement table applied to the configured API URL. -/
def apiHostReplacements : List (String × String) :=
  [("dashboard-api-production", "ctaaapi-production"),
   ("ctaaapi-production", "dashboard-api-production"),
   ("localhost", "host.docker.internal")]

/-- ApiError: the typed error of the gateway, carrying a message (an
arbitrary JS value, since the source coalesces body fields into it),
the HTTP status (408 for timeouts, 0 for network-level failures) and
the parsed body. -/
structure ApiError where
  message : Js
  status : ℤ
  data : Js
  deriving Repr

/-- A thrown JS error reaching a catch block: either an ApiError or a
plain error identified by its message string. -/
inductive Thrown where
  | apiErr : ApiError → Thrown
  | jsErr : String → Thrown
  deriving Repr

/-- The body of an HTTP response as handleResponse sees it: a JSON
body (none inside means the JSON parse threw and data stays null), or
a plain text body. -/
inductive RespBody where
  | jsonOf : Option Js → RespBody
  | textOf : String → RespBody
  deriving Repr

/-- The parsed data value handleResponse extracts from a body. -/
def RespBody.dataOf : RespBody → Js
  | .jsonOf (some v) => v
  | .jsonOf none => .null
  | .textOf s => .str s

/-- Outcome of fetching one URL: the timeout race fires, the fetch
rejects at the network level, or an HTTP response arrives. -/
inductive FetchOutcome where
  | timeout : FetchOutcome
  | netFail : FetchOutcome
  | resp : ℕ → RespBody → FetchOutcome

/-- handleResponse: parses the body, returns it for a 2xx status and
throws an ApiError carrying data.message || data.error || an
HTTP-status message, the status and the body otherwise. -/
def handleResponse (status : ℕ) (body : RespBody) : Except ApiError Js :=
  let data := body.dataOf
  if 200 ≤ status ∧ status ≤ 299 then .ok data
  else
    .error ⟨jsOr (data.get ("message"))
              (jsOr (data.get ("error")) (.str ("HTTP " ++ toString status))),
            (status : ℤ), data⟩

/-- handleError: normalizes any thrown error to an ApiError.  An
ApiError passes through; a timeout race loss becomes status 408; a
fetch network rejection becomes status 0; anything else keeps its
message (or a generic one when the message is empty) with status 0. -/
def handleError : Thrown → ApiError
  | .apiErr e => e
  | .jsErr m =>
    if m = "Request timeout" then ⟨.str ("Request timeout - please try again"), 408, .null⟩
    else if m = "Failed to fetch" then ⟨.str ("Network error - cannot reach server"), 0, .null⟩
    else ⟨.str (if m = "" then "Unknown error occurred" else m), 0, .null⟩

/-- apiClient.get / apiClient.post against a list of candidate base
URLs, given the network behavior of each URL.  The source reads
API_BASE_URL, which is the head of the candidate list
(API_BASE_URLS[0]); no other candidate is ever consulted.  Returns
the result together with the list of URLs actually contacted. -/
def apiRequest (candidates : List String) (behave : String → FetchOutcome) :
    Except ApiError Js × List String :=
  let base := candidates.headD ("undefined")
  let result : Except ApiError Js :=
    match behave base with
    | .timeout => .error (handleError (.jsErr ("Request timeout")))
    | .netFail => .error (handleError (.jsErr ("Failed to fetch")))
    | .resp status body =>
      (handleResponse status body).mapError (fun e => handleError (.apiErr e))
  (result, [base])

/-- wrapApiCall: converts the settled outcome of a client call into
the uniform wrapper object.  A resolved object already carrying a
success key passes through unchanged; any other resolved value is
wrapped as a success; a thrown error resolves (never rethrows) to
success false with the error message (the ApiError message, or a
generic message for foreign errors) and null data. -/
def wrapApiCall (r : Except Thrown Js) : Js :=
  match r with
  | .ok data => if data.hasKey ("success") then data
      else .obj [("success", .bool true), ("data", data)]
  | .error e =>
    .obj [("success", .bool false),
          ("error", match e with
                    | .apiErr a => a.message
                    | .jsErr _ => .str ("An unexpected error occurred")),
          ("data", .null)]

/-- getDashboardData: wrapApiCall around the dashboard-data GET,
parametrized by the settled outcome of the client call. -/
def getDashboardData (r : Except Thrown Js) : Js := wrapApiCall r

/-- refreshDashboard: wrapApiCall around the refresh POST. -/
def refreshDashboard (r : Except Thrown Js) : Js := wrapApiCall r

/-- getProfileOp: wrapApiCall around the profile GET. -/
def getProfileOp (r : Except Thrown Js) : Js := wrapApiCall r

/-- setProfileOp: wrapApiCall around the profile POST. -/
def setProfileOp (r : Except Thrown Js) : Js := wrapApiCall r

/-- getTransitData, getWeatherData, getCalendarData, getTasksData:
the section fetches, all wrapApiCall around the section GET. -/
def getSectionData (r : Except Thrown Js) : Js := wrapApiCall r

/-- healthCheck: wrapApiCall around the health GET. -/
def healthCheck (r : Except Thrown Js) : Js := wrapApiCall r

/-! ## Dashboard data synchronizer (src/hooks/useDashboardData.js) -/

/-- Lookup of a field in an object field list. -/
def lookupField (fs : List (String × Js)) (k : String) : Option Js :=
  (fs.find? (fun p => p.1 = k)).map Prod.snd

/-- Presence of a field in an object field list. -/
def hasField (fs : List (String × Js)) (k : String) : Bool :=
  fs.any (fun p => p.1 = k)

/-- The field list a value contributes under JS object spread: an
object spreads its fields; null, booleans and numbers spread nothing.
(A spread string would contribute index keys; no snapshot in these
sources is a string, and the theorems below quantify over objects.) -/
def Js.fieldsOf : Js → List (String × Js)
  | .obj fs => fs
  | _ => []

/-- JS object spread of two field lists: keys of the first keep their
position, taking the second list's value when it also has the key;
keys only in the second are appended in their order. -/
def spreadMerge (prev inc : List (String × Js)) : List (String × Js) :=
  prev.map (fun p => (p.1, (lookupField inc p.1).getD p.2))
    ++ inc.filter (fun q => ¬ hasField prev q.1)

/-- The JS typeof x === object test (true for objects, arrays and
null). -/
def Js.isObjType : Js → Bool
  | .obj _ => true
  | .arr _ => true
  | .null => true
  | _ => false

/-- The in-memory state of the useDashboardData hook, together with
the localStorage it writes through the storage service. -/
structure SyncModel where
  data : Option Js
  lastUpdated : Option ℤ
  errorMsg : Option Js
  loading : Bool
  store : Store Js

/-- updateData: validates the payload (truthy and typeof object),
then replaces the snapshot, stamps lastUpdated, clears the error, and
persists the payload twice: under the dashboard-data key with the
bounded 60-second ttl and under the last-valid-data key with an
Infinity ttl. -/
def updateData (now : ℤ) (newData : Js) (s : SyncModel) : SyncModel :=
  if newData.truthy ∧ newData.isObjType then
    let st1 := (saveToCache .ok .ok now keyDashboardData newData cacheTtlDashboard s.store).2
    let st2 := (saveToCache .ok .ok now keyLastValidData newData .inf st1).2
    { s with data := some newData, lastUpdated := some now,
             errorMsg := none, store := st2 }
  else s

/-- handleDashboardUpdate: on a payload whose partial flag is truthy,
replaces the in-memory snapshot with the object literal
spread(prev) + spread(incoming) + a timestamp property equal to
incoming.timestamp || the current ISO time, and touches nothing else
(no cache write, no lastUpdated, no error change); on a full payload
it behaves as updateData; a falsy payload is ignored. -/
def handleDashboardUpdate (now : ℤ) (nowISO : String) (incoming : Js)
    (s : SyncModel) : SyncModel :=
  if incoming.truthy then
    if (incoming.get ("partial")).truthy then
      let prevFields := (s.data.getD .null).fieldsOf
      let merged := Js.obj (spreadMerge (spreadMerge prevFields incoming.fieldsOf)
        [("timestamp", jsOr (incoming.get ("timestamp")) (.str nowISO))])
      { s with data := some merged }
    else updateData now incoming s
  else s

/-! ### The synchronizer event loop

The hook's trigger structure as a step relation: the WebSocket state,
the number of polling interval timers, and the number of snapshot
fetches currently in flight.  fetchData has no in-flight guard in the
source, so every trigger that reaches fetchData increments the
in-flight count; startPolling returns early when a timer already
exists, so the timer count never passes one. -/

/-- Events on the underlying WebSocket client. -/
inductive WsEvent where
  | connectCall : WsEvent
  | openEvt : WsEvent
  | errorEvt : WsEvent
  | closeEvt : WsEvent
  deriving Repr, DecidableEq

/-- State transition of the WebSocket client for one event, none when
the event cannot occur or is a no-op returning early: connect is a
no-op when connected or connecting, the open event fires on a socket
being opened, the error event on a live or opening socket, and close
can always fire. -/
def wsNext : WSState → WsEvent → Option WSState
  | s, .connectCall =>
    if s = .connected ∨ s = .connecting then none else some .connecting
  | s, .openEvt => if s = .connecting then some .connected else none
  | s, .errorEvt =>
    if s = .connecting ∨ s = .connected then some .error else none
  | _, .closeEvt => some .disconnected

/-- startPolling: a no-op when a polling timer already exists,
otherwise creates one. -/
def startPolling (timers : ℕ) : ℕ := if timers ≠ 0 then timers else timers + 1

/-- handleStateChange: the hook's reaction to a state:change event.
On connected it stops polling and then performs a resync fetch (the
boolean reports that a fetch starts); on disconnected or error it
starts polling; on connecting it does nothing. -/
def handleStateChange (new : WSState) (timers : ℕ) : ℕ × Bool :=
  match new with
  | .connected => (0, true)
  | .disconnected => (startPolling timers, false)
  | .error => (startPolling timers, false)
  | .connecting => (timers, false)

/-- Combined loop state of the synchronizer. -/
structure SyncLoop where
  ws : WSState
  timers : ℕ
  inFlight : ℕ
  deriving Repr, DecidableEq

/-- Loop events: a polling interval tick, an event on the WebSocket
client, a manual refresh call, and the completion of an in-flight
fetch. -/
inductive LoopEvent where
  | pollTickE : LoopEvent
  | wsE : WsEvent → LoopEvent
  | manualRefresh : LoopEvent
  | fetchDone : LoopEvent
  deriving Repr

/-- The hook state after mount: the mount effect issues one fetch
(fetchData true) and starts polling exactly when the client is not
connected at subscription time. -/
def loopInit (w : WSState) : SyncLoop :=
  ⟨w, if w ≠ WSState.connected then 1 else 0, 1⟩

/-- One step of the synchronizer loop.  A polling tick exists only
while a timer runs and calls fetchData only when the client is not
connected at tick time; fetchData itself has no in-flight guard, so
the in-flight count simply increments on every trigger that reaches
it.  A WebSocket event first moves the client state (emitting
state:change only on an actual change) and then runs
handleStateChange.  Manual refresh always fetches.  fetchDone settles
one in-flight fetch. -/
def loopStep (s : SyncLoop) (e : LoopEvent) : Option SyncLoop :=
  match e with
  | .pollTickE =>
    if s.timers = 0 then none
    else some (if s.ws ≠ .connected then { s with inFlight := s.inFlight + 1 } else s)
  | .wsE ev =>
    match wsNext s.ws ev with
    | none => none
    | some ns =>
      if ns = s.ws then some s
      else
        let h := handleStateChange ns s.timers
        some ⟨ns, h.1, if h.2 then s.inFlight + 1 else s.inFlight⟩
  | .manualRefresh => some { s with inFlight := s.inFlight + 1 }
  | .fetchDone =>
    if s.inFlight = 0 then none else some { s with inFlight := s.inFlight - 1 }

/-- Reachability of a loop state from some mount state. -/
inductive LoopReach : SyncLoop → Prop where
  | init (w : WSState) : LoopReach (loopInit w)
  | step {s s' : SyncLoop} {e : LoopEvent} :
      LoopReach s → loopStep s e = some s' → LoopReach s'

/-! ## Profile coordinator (src/hooks/useProfile.js, src/config/profiles.js) -/

/-- The keys of the PROFILES table. -/
def profileKeys : List String :=
  ["default", "personal", "guest", "morning", "work"]

/-- getProfile of src/config/profiles.js reduced to definedness: the
lookup returns a configuration object exactly for known keys, null
otherwise.  isProfileSupported of the hook is exactly this test. -/
def isProfileSupported (profileId : String) : Bool :=
  profileKeys.contains profileId

/-- The in-memory state of the useProfile hook plus the localStorage
behind the storage service (values stored as JS values: the current
profile as a string, the history as an array). -/
structure ProfileModel where
  currentProfile : String
  errorMsg : Option Js
  store : Store Js

/-- getProfileHistory: the stored history array or the empty array. -/
def getProfileHistory (now : ℤ) (s : Store Js) : List Js × Store Js :=
  match getFromCache now keyProfileHistory s with
  | (some (.arr xs), s') => (xs, s')
  | (some _, s') => ([], s')
  | (none, s') => ([], s')

/-- saveProfile of the storage service: persists the profile string
under the current-profile key with the Infinity ttl and prepends a
history entry, keeping the ten most recent. -/
def saveProfile (now : ℤ) (profile : String) (s : Store Js) : Store Js :=
  let r := saveToCache .ok .ok now keyProfileCurrent (.str profile) cacheTtlProfile s
  if r.1 then
    let h := getProfileHistory now r.2
    let entry : Js := .obj [("profile", .str profile), ("timestamp", .num (now : ℚ))]
    (saveToCache .ok .ok now keyProfileHistory (.arr ((entry :: h.1).take 10))
      cacheTtlProfile h.2).2
  else r.2

/-- updateProfileState: adopts the profile when its configuration
exists, otherwise records an invalid-profile error and leaves the
current profile untouched. -/
def updateProfileState (profileId : String) (s : ProfileModel) : ProfileModel :=
  if isProfileSupported profileId then { s with currentProfile := profileId }
  else { s with errorMsg := some (.str ("Invalid profile: " ++ profileId)) }

/-- setProfile of the useProfile hook.  Rejects unsupported targets
with an error and a false result.  Otherwise: optimistic update of
state and cache, then the backend confirmation (its settled wrapper
response is the response argument; setProfileViaAPI never rejects).
On a response without truthy success, the thrown error is caught and
rolled back: state and cache are restored to the pre-change profile
and the error is surfaced in state; the call returns false rather
than throwing.  On success a profile-changed broadcast is attempted
when the channel is connected (best-effort).  Returns the new state
and the boolean result. -/
def setProfile (now : ℤ) (response : Js) (newProfile : String)
    (s : ProfileModel) : ProfileModel × Bool :=
  if ¬ isProfileSupported newProfile then
    let msg : Js := .str ("Profile not supported on this display")
    ({ s with errorMsg := some msg }, false)
  else
    let rollbackProfile := s.currentProfile
    let s1 := updateProfileState newProfile s
    let s2 := { s1 with store := saveProfile now newProfile s1.store,
                        errorMsg := none }
    if ¬ (response.get ("success")).truthy then
      let s3 := updateProfileState rollbackProfile s2
      let s4 := { s3 with store := saveProfile now rollbackProfile s3.store }
      let msg : Js := jsOr (response.get ("error")) (.str ("Failed to set profile"))
      ({ s4 with errorMsg := some msg }, false)
    else (s2, true)

/-! ## Concrete inputs used by counterexamples and witnesses -/

/-- A client on which connect() was called and whose connection then
opened successfully: the start of a connected period with
auto-reconnect enabled. -/
def liveClient : WSClient := (WSClient.init.connect).handleOpen

/-- The candidate base URL list for the default configuration (the
localhost primary with the Docker host substitution applying). -/
def exampleCandidates : List String :=
  buildFallbackUrls ("http://localhost:3001") apiHostReplacements none

/-- A network behavior in which the first candidate host times out
and every other host answers 200 with a success body. -/
def firstHostTimesOut : String → FetchOutcome :=
  fun u =>
    if u = "http://localhost:3001" then .timeout
    else .resp 200 (.jsonOf (some (.obj [(("success"), .bool true)])))

end DashboardUI

namespace DashboardUI

/-- Sanity example kept as a theorem: a fresh finite-ttl entry is
readable at its write time. -/
theorem storeSanity :
    (getFromCache 0 keyDashboardData
      (saveToCache (α := ℕ) .ok .ok 0 keyDashboardData 7 cacheTtlDashboard
        Store.empty).2).1 = some 7 := by
  decide

/-! ## Store lemmas shared by several claims -/

theorem find?_filter_keep {β : Type} (l : List β) (p q : β → Bool)
    (himp : ∀ a, q a = true → p a = true) :
    (l.filter p).find? q = l.find? q := by
  induction l with
  | nil => simp
  | cons a t ih =>
    by_cases hq : q a = true
    · simp [List.filter_cons, List.find?_cons, hq, himp a hq]
    · by_cases hp : p a = true <;>
        simp [List.filter_cons, List.find?_cons, hp, hq, ih]

theorem getItem_setItem_self {α : Type} (s : Store α) (k : String) (e : StoredEntry α) :
    (s.setItem k e).getItem k = some e := by
  simp [Store.getItem, Store.setItem]

theorem getItem_setItem_ne {α : Type} (s : Store α) (k k' : String) (e : StoredEntry α)
    (h : k' ≠ k) : (s.setItem k e).getItem k' = s.getItem k' := by
  simp only [Store.getItem, Store.setItem]
  rw [List.find?_cons_of_neg _ (by simpa using fun hh : k = k' => h hh.symm)]
  rw [find?_filter_keep]
  intro a ha
  have ha' : a.1 = k' := by simpa using ha
  simpa [ha'] using fun hh : k' = k => h hh

theorem getItem_removeItem_ne {α : Type} (s : Store α) (k k' : String)
    (h : k' ≠ k) : (s.removeItem k).getItem k' = s.getItem k' := by
  simp only [Store.getItem, Store.removeItem]
  rw [find?_filter_keep]
  intro a ha
  have ha' : a.1 = k' := by simpa using ha
  simpa [ha'] using fun hh : k' = k => h hh

/-- Any entry surviving cleanupExpiredCache is not an expired
namespaced entry. -/
theorem getItem_cleanup_not_expired {α : Type} (now : ℤ) (s : Store α)
    (k : String) (e : StoredEntry α)
    (h : ((cleanupExpiredCache now s).2).getItem k = some e) :
    (k.startsWith storagePrefixVal && entryExpired now e) = false := by
  simp only [cleanupExpiredCache, Store.getItem] at h
  obtain ⟨pe, hfind, hsnd⟩ := Option.map_eq_some'.mp h
  have hmem := List.mem_of_find?_eq_some hfind
  have hpred : pe.1 = k := by simpa using List.find?_some hfind
  have hkeep := (List.mem_filter.mp hmem).2
  subst hsnd
  rw [← hpred]
  have hd : pe.1.startsWith storagePrefixVal = false ∨ entryExpired now pe.2 = false := by
    simpa using hkeep
  rcases hd with h1 | h1 <;> simp [h1]

/-! ## Claim C4: cache ttl semantics -/

/-- C4.  The claim asserts that an entry written with ttl = Infinity
is returned regardless of age until explicitly removed.  The code
disagrees: saveToCache serializes the entry with JSON.stringify,
which writes the Infinity ttl as null, so on the next read the
Infinity guard of getFromCache does not fire and the age comparison
becomes age > null, i.e. age > 0.  Evaluating the code at the
failing input: an entry written at time 0 with the never-expiring
profile ttl is already treated as expired when read one millisecond
later, is deleted by the read, and the read returns absent. -/
theorem c4_never_ttl_entry_expires_after_one_ms :
    (getFromCache 1 keyProfileCurrent
      (saveToCache (α := ℕ) .ok .ok 0 keyProfileCurrent 42 cacheTtlProfile
        Store.empty).2).1 = none ∧
    ((getFromCache 1 keyProfileCurrent
      (saveToCache (α := ℕ) .ok .ok 0 keyProfileCurrent 42 cacheTtlProfile
        Store.empty).2).2).getItem (getNamespacedKey keyProfileCurrent) = none ∧
    (getFromCache 0 keyProfileCurrent
      (saveToCache (α := ℕ) .ok .ok 0 keyProfileCurrent 42 cacheTtlProfile
        Store.empty).2).1 = some 42 := by
  decide

/-! ## Claim C9: best-effort cache writes -/

/-- C9.  saveToCache converts every storage failure into a boolean
result instead of throwing: the write succeeds exactly when the
first setItem succeeds or when a quota failure is followed by a
successful single retry; a non-quota error leaves the store
untouched and returns false; a successful write stores the entry
under the namespaced key; and on the quota path every expired
namespaced entry (other than the key being rewritten) has been
evicted before the retry, so none survives in the resulting store. -/
theorem c9_saveToCache_best_effort {α : Type} (o1 o2 : SetOutcome) (now : ℤ)
    (key : String) (data : α) (ttl : JsNumber) (s : Store α) :
    ((saveToCache o1 o2 now key data ttl s).1 = true ↔
      (o1 = .ok ∨ (o1 = .quotaExceeded ∧ o2 = .ok))) ∧
    (o1 = .otherError → saveToCache o1 o2 now key data ttl s = (false, s)) ∧
    ((saveToCache o1 o2 now key data ttl s).1 = true →
      ((saveToCache o1 o2 now key data ttl s).2).getItem (getNamespacedKey key) =
        some ⟨data, now, jsonTtl ttl⟩) ∧
    (o1 = .quotaExceeded → ∀ k e, k.startsWith storagePrefixVal = true →
      k ≠ getNamespacedKey key →
      ((saveToCache o1 o2 now key data ttl s).2).getItem k = some e →
      entryExpired now e = false) := by
  cases o1 with
  | ok =>
    refine ⟨by simp [saveToCache], by simp, ?_, by simp⟩
    intro _
    simpa [saveToCache] using getItem_setItem_self s (getNamespacedKey key) _
  | quotaExceeded =>
    cases o2 with
    | ok =>
      refine ⟨by simp [saveToCache], by simp, ?_, ?_⟩
      · intro _
        simpa [saveToCache] using
          getItem_setItem_self (cleanupExpiredCache now s).2 (getNamespacedKey key) _
      · intro _ k e hks hkne hget
        simp only [saveToCache] at hget
        rw [getItem_setItem_ne _ _ _ _ hkne] at hget
        have hc := getItem_cleanup_not_expired now s k e hget
        simpa [hks] using hc
    | quotaExceeded =>
      refine ⟨by simp [saveToCache], by simp, by simp [saveToCache], ?_⟩
      intro _ k e hks _ hget
      simp only [saveToCache] at hget
      have hc := getItem_cleanup_not_expired now s k e hget
      simpa [hks] using hc
    | otherError =>
      refine ⟨by simp [saveToCache], by simp, by simp [saveToCache], ?_⟩
      intro _ k e hks _ hget
      simp only [saveToCache] at hget
      have hc := getItem_cleanup_not_expired now s k e hget
      simpa [hks] using hc
  | otherError => exact ⟨by simp [saveToCache], by simp [saveToCache], by simp [saveToCache], by simp⟩

/-- Witness for C9: a concrete quota failure whose retry succeeds,
on a store holding an expired namespaced entry. -/
theorem c9_witness :
    (saveToCache (α := ℕ) .quotaExceeded .ok 5 keyDashboardData 7 cacheTtlDashboard
        [(getNamespacedKey keyLastValidData, ⟨1, 0, .null⟩)]).1 = true ∧
    ((saveToCache (α := ℕ) .quotaExceeded .ok 5 keyDashboardData 7 cacheTtlDashboard
        [(getNamespacedKey keyLastValidData, ⟨1, 0, .null⟩)]).2).getItem
        (getNamespacedKey keyDashboardData) = some ⟨7, 5, .num 60000⟩ := by
  have h := c9_saveToCache_best_effort (α := ℕ) .quotaExceeded .ok 5 keyDashboardData 7
    cacheTtlDashboard [(getNamespacedKey keyLastValidData, ⟨1, 0, .null⟩)]
  have hs : (saveToCache (α := ℕ) .quotaExceeded .ok 5 keyDashboardData 7 cacheTtlDashboard
      [(getNamespacedKey keyLastValidData, ⟨1, 0, .null⟩)]).1 = true :=
    h.1.mpr (Or.inr ⟨rfl, rfl⟩)
  exact ⟨hs, h.2.2.1 hs⟩

/-! ## Episode lemmas for the reconnect claims -/

theorem handleClose_fst_maxDelay (c : WSClient) :
    (c.handleClose).1.maxReconnectDelay = c.maxReconnectDelay := by
  simp only [WSClient.handleClose, WSClient.attemptReconnect]
  split
  · split <;> rfl
  · rfl

theorem connect_maxDelay (c : WSClient) :
    (c.connect).maxReconnectDelay = c.maxReconnectDelay := by
  simp only [WSClient.connect]
  split <;> rfl

theorem handleClose_delay_le (c : WSClient) (d : ℚ)
    (h : (c.handleClose).2 = some d) : d ≤ c.maxReconnectDelay := by
  simp only [WSClient.handleClose, WSClient.attemptReconnect] at h
  split at h
  · split at h
    · simp at h
    · have hd : min ((({ c with state := WSState.disconnected }) : WSClient).reconnectDelay *
          (3 / 2 : ℚ) ^ ((({ c with state := WSState.disconnected }) : WSClient).reconnectAttempts + 1 - 1))
          (({ c with state := WSState.disconnected }) : WSClient).maxReconnectDelay = d := by
        simpa using h
      exact hd ▸ min_le_right _ _
  · simp at h

theorem episodeIter_maxDelay (c : WSClient) :
    ∀ n, (episodeIter c n).1.maxReconnectDelay = c.maxReconnectDelay := by
  intro n
  induction n with
  | zero =>
    exact (handleClose_fst_maxDelay (c.handleOpen)).trans rfl
  | succ m ih =>
    calc (episodeIter c (m + 1)).1.maxReconnectDelay
        = ((episodeIter c m).1.connect).maxReconnectDelay :=
          handleClose_fst_maxDelay _
      _ = (episodeIter c m).1.maxReconnectDelay := connect_maxDelay _
      _ = c.maxReconnectDelay := ih

/-- Field bookkeeping for the first five failures of an episode: the
attempt counter advances one per failure and the constructor-fixed
fields persist. -/
theorem episodeIter_fields (c : WSClient) (h5 : c.maxReconnectAttempts = 5)
    (h30 : c.maxReconnectDelay = 30000) (hsr : c.shouldReconnect = true) :
    ∀ n, n ≤ 4 →
      (episodeIter c n).1.reconnectAttempts = n + 1 ∧
      (episodeIter c n).1.reconnectDelay = 1000 ∧
      (episodeIter c n).1.maxReconnectAttempts = 5 ∧
      (episodeIter c n).1.maxReconnectDelay = 30000 ∧
      (episodeIter c n).1.shouldReconnect = true ∧
      (episodeIter c n).1.state = WSState.disconnected := by
  intro n
  induction n with
  | zero =>
    intro _
    simp [episodeIter, WSClient.handleOpen, WSClient.handleClose,
      WSClient.attemptReconnect, h5, h30, hsr]
  | succ m ih =>
    intro hm
    obtain ⟨ha, hd, hmax, hmd, hsr2, hst⟩ := ih (by omega)
    have hlt : ¬ (5 ≤ m + 1) := by omega
    simp [episodeIter, reconnectFailCycle, WSClient.connect, WSClient.handleErrorEvt,
      WSClient.handleClose, WSClient.attemptReconnect, ha, hd, hmax, hmd, hsr2, hst, hlt]

/-- The delay scheduled by the (n+1)-th failure of an episode. -/
theorem episodeIter_delay (c : WSClient) (h5 : c.maxReconnectAttempts = 5)
    (h30 : c.maxReconnectDelay = 30000) (hsr : c.shouldReconnect = true) :
    ∀ n, n ≤ 4 →
      (episodeIter c n).2 = some (min (1000 * (3 / 2 : ℚ) ^ n) 30000) := by
  intro n hn
  cases n with
  | zero =>
    simp [episodeIter, WSClient.handleOpen, WSClient.handleClose,
      WSClient.attemptReconnect, h5, h30, hsr]
  | succ m =>
    obtain ⟨ha, hd, hmax, hmd, hsr2, hst⟩ :=
      episodeIter_fields c h5 h30 hsr m (by omega)
    have hlt : ¬ (5 ≤ m + 1) := by omega
    simp [episodeIter, reconnectFailCycle, WSClient.connect, WSClient.handleErrorEvt,
      WSClient.handleClose, WSClient.attemptReconnect, ha, hd, hmax, hmd, hsr2, hst, hlt]

theorem backoffFormula_mono (n m : ℕ) (h : n ≤ m) :
    min ((1000 : ℚ) * (3 / 2) ^ n) 30000 ≤ min ((1000 : ℚ) * (3 / 2) ^ m) 30000 := by
  apply min_le_min _ le_rfl
  apply mul_le_mul_of_nonneg_left _ (by norm_num)
  exact pow_le_pow_right₀ (by norm_num) h

/-! ## Claim C1: reconnection attempts -/

/-- C1 counterexample.  The claim asserts that after every number of
consecutive failures another reconnect attempt is scheduled, with no
hard cap, as long as disconnect() was never called.  On the concrete
episode of the freshly connected client: the first five failures each
schedule an attempt, but after the fifth consecutive failure no
further attempt is scheduled (attemptReconnect emits its
max-reconnect-attempts error and returns without scheduling) even
though auto-reconnect is still enabled. -/
theorem c1_counterexample :
    (episodeIter liveClient 5).2 = none ∧
    (episodeIter liveClient 5).1.shouldReconnect = true ∧
    (episodeIter liveClient 4).2.isSome = true := by
  decide

/-- C1 as amended: with auto-reconnect enabled, a failure schedules
another attempt exactly while fewer than maxReconnectAttempts = 5
attempts have been made; disconnect() disables auto-reconnect, after
which a close schedules nothing. -/
theorem c1_reconnect_capped (c : WSClient) (hsr : c.shouldReconnect = true)
    (h5 : c.maxReconnectAttempts = 5) :
    (((c.handleClose).2).isSome = true ↔ c.reconnectAttempts < 5) ∧
    ((c.disconnect).shouldReconnect = false) ∧
    (((c.disconnect).handleClose).2 = none) := by
  refine ⟨?_, rfl, ?_⟩
  · simp only [WSClient.handleClose, WSClient.attemptReconnect, hsr, h5]
    by_cases hc : 5 ≤ c.reconnectAttempts
    all_goals simp [hc]
    all_goals omega
  · simp [WSClient.disconnect, WSClient.handleClose]

/-- Witness for C1 as amended, at a client with auto-reconnect on. -/
theorem c1_witness :
    ((({ WSClient.init with shouldReconnect := true }).handleClose).2.isSome = true ↔
      ({ WSClient.init with shouldReconnect := true }).reconnectAttempts < 5) ∧
    ((({ WSClient.init with shouldReconnect := true }).disconnect).shouldReconnect = false) ∧
    (((({ WSClient.init with shouldReconnect := true }).disconnect).handleClose).2 = none) :=
  c1_reconnect_capped _ rfl rfl

/-! ## Claim C6: reconnect backoff -/

/-- C6.  Within one disconnection episode of a client whose
constructor constants are in force and whose auto-reconnect is
enabled: the n-th scheduled reconnect delay (n between 1 and the cap
of 5) equals min(1000 * 1.5 ^ (n - 1), 30000); successive delays are
non-decreasing; every scheduled delay of the episode is bounded by
30000; and a successful open resets the attempt counter to 0 so the
first delay of the next episode is again 1000. -/
theorem c6_reconnect_backoff (c : WSClient) (h5 : c.maxReconnectAttempts = 5)
    (h30 : c.maxReconnectDelay = 30000) (hsr : c.shouldReconnect = true) :
    (∀ n : ℕ, 1 ≤ n → n ≤ 5 →
      (episodeIter c (n - 1)).2 = some (min (1000 * (3 / 2 : ℚ) ^ (n - 1)) 30000)) ∧
    (∀ n m : ℕ, ∀ dn dm : ℚ, 1 ≤ n → n ≤ m → m ≤ 5 →
      (episodeIter c (n - 1)).2 = some dn → (episodeIter c (m - 1)).2 = some dm →
      dn ≤ dm) ∧
    (∀ n : ℕ, ∀ d : ℚ, (episodeIter c n).2 = some d → d ≤ 30000) ∧
    ((c.handleOpen).reconnectAttempts = 0 ∧ (episodeIter c 0).2 = some 1000) := by
  refine ⟨?_, ?_, ?_, rfl, ?_⟩
  · intro n h1 hn
    exact episodeIter_delay c h5 h30 hsr (n - 1) (by omega)
  · intro n m dn dm h1 hnm hm hdn hdm
    have en := episodeIter_delay c h5 h30 hsr (n - 1) (by omega)
    have em := episodeIter_delay c h5 h30 hsr (m - 1) (by omega)
    have hn' : dn = min (1000 * (3 / 2 : ℚ) ^ (n - 1)) 30000 :=
      Option.some.inj (hdn.symm.trans en)
    have hm' : dm = min (1000 * (3 / 2 : ℚ) ^ (m - 1)) 30000 :=
      Option.some.inj (hdm.symm.trans em)
    rw [hn', hm']
    exact backoffFormula_mono _ _ (by omega)
  · intro n d hd
    cases n with
    | zero =>
      have := handleClose_delay_le (c.handleOpen) d hd
      simpa [WSClient.handleOpen, h30] using this
    | succ m =>
      have h1 := handleClose_delay_le ((episodeIter c m).1.connect).handleErrorEvt d hd
      have h2 : ((episodeIter c m).1.connect).maxReconnectDelay = 30000 :=
        (connect_maxDelay _).trans ((episodeIter_maxDelay c m).trans h30)
      simpa [WSClient.handleErrorEvt, h2] using h1
  · have h0 := episodeIter_delay c h5 h30 hsr 0 (by omega)
    rw [h0]
    norm_num

/-- Witness for C6 on the freshly connecting client: the third delay
is 2250 milliseconds and the first is 1000. -/
theorem c6_witness :
    (episodeIter (WSClient.init.connect) 2).2 = some 2250 ∧
    (episodeIter (WSClient.init.connect) 0).2 = some 1000 := by
  have h := c6_reconnect_backoff (WSClient.init.connect) rfl rfl rfl
  constructor
  · exact (h.1 3 (by norm_num) (by norm_num)).trans (by norm_num)
  · exact h.2.2.2.2

/-! ## Claim C3: gateway host fallback -/

/-- C3 counterexample.  The claim asserts that when the first
candidate host times out and the second succeeds, the gateway result
equals the second host response.  On the default configuration the
candidate list has two hosts, the behavior makes the first time out
and the second answer 200 with a success body, yet the code contacts
only the first candidate and returns the 408 timeout ApiError: the
second host is never tried, so the claim fails at this input. -/
theorem c3_counterexample :
    exampleCandidates = ["http://localhost:3001", "http://host.docker.internal:3001"] ∧
    firstHostTimesOut ("http://host.docker.internal:3001") =
      .resp 200 (.jsonOf (some (.obj [(("success"), .bool true)]))) ∧
    (apiRequest exampleCandidates firstHostTimesOut).2 = ["http://localhost:3001"] ∧
    (apiRequest exampleCandidates firstHostTimesOut).1 =
      .error ⟨.str ("Request timeout - please try again"), 408, .null⟩ := by
  refine ⟨by decide, rfl, rfl, rfl⟩

/-- C3 as amended: the gateway contacts only the first candidate base
URL.  The contacted list is exactly the first candidate; the result
depends only on the first host's behavior; a timeout on the first
host yields the 408 timeout ApiError without any further host being
contacted; and a non-2xx response from the reached host is a
definitive ApiError carrying the HTTP status and the parsed body,
never retried against other hosts. -/
theorem c3_first_host_only (candidates : List String)
    (b b' : String → FetchOutcome) (hne : candidates ≠ []) :
    ((apiRequest candidates b).2 = candidates.take 1) ∧
    (b (candidates.headD ("undefined")) = b' (candidates.headD ("undefined")) →
      apiRequest candidates b = apiRequest candidates b') ∧
    (b (candidates.headD ("undefined")) = .timeout →
      (apiRequest candidates b).1 =
        .error ⟨.str ("Request timeout - please try again"), 408, .null⟩) ∧
    (∀ st : ℕ, ∀ body : RespBody, b (candidates.headD ("undefined")) = .resp st body →
      ¬ (200 ≤ st ∧ st ≤ 299) →
      (apiRequest candidates b).1 = .error
        ⟨jsOr ((body.dataOf).get ("message"))
           (jsOr ((body.dataOf).get ("error")) (.str ("HTTP " ++ toString st))),
         (st : ℤ), body.dataOf⟩) := by
  refine ⟨?_, ?_, ?_, ?_⟩
  · cases candidates with
    | nil => exact absurd rfl hne
    | cons a t => rfl
  · intro hb
    simp only [apiRequest]
    rw [hb]
  · intro hb
    simp only [apiRequest]
    rw [hb]
    rfl
  · intro st body hb h2xx
    simp only [apiRequest]
    rw [hb]
    simp only [handleResponse, handleError, if_neg h2xx]
    rfl

/-- Witness for C3 as amended at the default candidate list with the
first host timing out. -/
theorem c3_witness :
    (apiRequest exampleCandidates firstHostTimesOut).2 = exampleCandidates.take 1 ∧
    (apiRequest exampleCandidates firstHostTimesOut).1 =
      .error ⟨.str ("Request timeout - please try again"), 408, .null⟩ := by
  have h := c3_first_host_only exampleCandidates firstHostTimesOut firstHostTimesOut
    (by decide)
  exact ⟨h.1, h.2.2.1 rfl⟩

/-! ## Claim C10: wrapped gateway operations -/

/-- C10.  Every exported gateway operation settles to the uniform
wrapper and never rethrows: a thrown error (timeout, network
failure, non-2xx ApiError, or any foreign error) becomes the object
success: false, error: message, data: null; a resolved object already
carrying a success key passes through as the backend wrapper; any
other resolved value is wrapped as success: true with the value as
data; and each exported operation is exactly this wrapping of its
client call. -/
theorem c10_wrapped_results (r : Except Thrown Js) :
    (∀ e : Thrown, r = .error e → wrapApiCall r =
      .obj [(("success"), .bool false),
            (("error"), match e with
                        | .apiErr a => a.message
                        | .jsErr _ => .str ("An unexpected error occurred")),
            (("data"), .null)]) ∧
    (∀ d : Js, r = .ok d → d.hasKey ("success") = true → wrapApiCall r = d) ∧
    (∀ d : Js, r = .ok d → d.hasKey ("success") = false →
      wrapApiCall r = .obj [(("success"), .bool true), (("data"), d)]) ∧
    getDashboardData r = wrapApiCall r ∧ refreshDashboard r = wrapApiCall r ∧
    getProfileOp r = wrapApiCall r ∧ setProfileOp r = wrapApiCall r ∧
    getSectionData r = wrapApiCall r ∧ healthCheck r = wrapApiCall r := by
  refine ⟨?_, ?_, ?_, rfl, rfl, rfl, rfl, rfl, rfl⟩
  · rintro e rfl
    rfl
  · rintro d rfl h
    simp [wrapApiCall, h]
  · rintro d rfl h
    simp [wrapApiCall, h]

/-- Witness for C10: a thrown ApiError resolves to the failure
wrapper, and a raw payload resolves to a success wrapper. -/
theorem c10_witness :
    getDashboardData (.error (.apiErr ⟨.str ("boom"), 500, .null⟩)) =
      .obj [(("success"), .bool false), (("error"), .str ("boom")), (("data"), .null)] ∧
    healthCheck (.ok (.obj [(("ok"), .bool true)])) =
      .obj [(("success"), .bool true), (("data"), .obj [(("ok"), .bool true)])] := by
  have h1 := c10_wrapped_results (.error (.apiErr ⟨.str ("boom"), 500, .null⟩))
  have h2 := c10_wrapped_results (.ok (.obj [(("ok"), .bool true)]))
  constructor
  · exact (h1.2.2.2.1).trans (h1.1 _ rfl)
  · exact (h2.2.2.2.2.2.2.2.2).trans (h2.2.2.1 _ rfl rfl)

/-! ## Claim C5: profile rollback -/

theorem getItem_getFromCache_ne {α : Type} (now : ℤ) (key : String) (s : Store α)
    (k : String) (h : k ≠ getNamespacedKey key) :
    ((getFromCache now key s).2).getItem k = s.getItem k := by
  simp only [getFromCache]
  cases hg : Store.getItem s (getNamespacedKey key) with
  | none => simp
  | some e =>
    by_cases he : entryExpired now e = true
    · simp [he, getItem_removeItem_ne _ _ _ h]
    · simp [he]

theorem getProfileHistory_store (now : ℤ) (st : Store Js) :
    (getProfileHistory now st).2 = (getFromCache now keyProfileHistory st).2 := by
  simp only [getProfileHistory]
  rcases hg : getFromCache now keyProfileHistory st with ⟨o, s'⟩
  cases o with
  | none => simp
  | some v => cases v <;> simp

/-- The current-profile cache entry immediately after saveProfile. -/
theorem saveProfile_getItem_current (now : ℤ) (p : String) (s : Store Js) :
    (saveProfile now p s).getItem (getNamespacedKey keyProfileCurrent) =
      some ⟨.str p, now, .null⟩ := by
  have hne : getNamespacedKey keyProfileCurrent ≠ getNamespacedKey keyProfileHistory := by
    decide
  simp only [saveProfile, saveToCache, if_true]
  rw [getItem_setItem_ne _ _ _ _ hne]
  rw [getProfileHistory_store]
  rw [getItem_getFromCache_ne _ _ _ _ hne]
  exact getItem_setItem_self _ _ _

/-- C5.  When the requested profile is in the known set and the
backend confirmation settles without success, setProfile rolls the
optimistic update back completely: the observable profile is again
the pre-change profile, the current-profile cache entry again holds
the pre-change profile, an error is surfaced in state, and the call
returns false instead of throwing. -/
theorem c5_profile_rollback (now : ℤ) (resp : Js) (B : String) (s : ProfileModel)
    (hB : isProfileSupported B = true)
    (hA : isProfileSupported s.currentProfile = true)
    (hfail : (resp.get ("success")).truthy = false) :
    ((setProfile now resp B s).1).currentProfile = s.currentProfile ∧
    (((setProfile now resp B s).1).store).getItem (getNamespacedKey keyProfileCurrent) =
      some ⟨.str s.currentProfile, now, .null⟩ ∧
    ((setProfile now resp B s).1).errorMsg.isSome = true ∧
    (setProfile now resp B s).2 = false := by
  refine ⟨?_, ?_, ?_, ?_⟩
  · simp [setProfile, updateProfileState, hB, hA, hfail]
  · simp [setProfile, updateProfileState, hB, hA, hfail, saveProfile_getItem_current]
  · simp [setProfile, updateProfileState, hB, hA, hfail]
  · simp [setProfile, updateProfileState, hB, hA, hfail]

/-- Witness for C5: current profile default, requested profile
morning, backend answers success false. -/
theorem c5_witness :
    ((setProfile 0 (.obj [(("success"), .bool false)]) ("morning")
        ⟨("default"), none, Store.empty⟩).1).currentProfile = "default" ∧
    (((setProfile 0 (.obj [(("success"), .bool false)]) ("morning")
        ⟨("default"), none, Store.empty⟩).1).store).getItem
        (getNamespacedKey keyProfileCurrent) = some ⟨.str ("default"), 0, .null⟩ ∧
    ((setProfile 0 (.obj [(("success"), .bool false)]) ("morning")
        ⟨("default"), none, Store.empty⟩).1).errorMsg.isSome = true ∧
    (setProfile 0 (.obj [(("success"), .bool false)]) ("morning")
        ⟨("default"), none, Store.empty⟩).2 = false :=
  c5_profile_rollback 0 (.obj [(("success"), .bool false)]) ("morning")
    ⟨("default"), none, Store.empty⟩ rfl rfl rfl

/-! ## Claim C8: partial update merge -/

theorem find?_mapOverlay (prev inc : List (String × Js)) (k : String) :
    List.find? (fun q => q.1 = k)
        (prev.map (fun p => (p.1, (lookupField inc p.1).getD p.2)))
      = (List.find? (fun p => p.1 = k) prev).map
          (fun p => (p.1, (lookupField inc p.1).getD p.2)) := by
  induction prev with
  | nil => rfl
  | cons p ps ih =>
    by_cases hp : p.1 = k
    · rw [List.map_cons, List.find?_cons_of_pos _ (by simpa using hp),
        List.find?_cons_of_pos _ (by simpa using hp)]
      rfl
    · rw [List.map_cons, List.find?_cons_of_neg _ (by simpa using hp),
        List.find?_cons_of_neg _ (by simpa using hp)]
      exact ih

/-- Lookup in a JS object spread: the incoming value wins where
present, the previous value survives elsewhere. -/
theorem lookupField_spreadMerge (prev inc : List (String × Js)) (k : String) :
    lookupField (spreadMerge prev inc) k =
      (lookupField inc k).or (lookupField prev k) := by
  have key : ∀ l : List (String × Js),
      lookupField l k = (List.find? (fun q => q.1 = k) l).map Prod.snd :=
    fun l => rfl
  rw [key (spreadMerge prev inc), key inc, key prev]
  simp only [spreadMerge]
  rw [List.find?_append]
  rw [find?_mapOverlay]
  by_cases hp : hasField prev k = true
  · have hsome : (List.find? (fun p => p.1 = k) prev).isSome = true := by
      simp only [hasField] at hp
      simpa [List.find?_isSome] using hp
    rcases Option.isSome_iff_exists.mp hsome with ⟨p0, hp0⟩
    rw [hp0]
    have hk0 : p0.1 = k := by simpa using List.find?_some hp0
    cases hinc : List.find? (fun q => q.1 = k) inc with
    | some w => simp [Option.or, hk0, key inc, hinc]
    | none => simp [Option.or, hk0, key inc, hinc]
  · have hp' : hasField prev k = false := by simpa using hp
    have hnone : List.find? (fun p => p.1 = k) prev = none := by
      rw [List.find?_eq_none]
      intro x hx hpx
      have hcontra : hasField prev k = true := by
        simp only [hasField, List.any_eq_true]
        exact ⟨x, hx, by simpa using hpx⟩
      rw [hcontra] at hp'
      cases hp'
    rw [hnone]
    rw [find?_filter_keep inc _ _ ?himp]
    · cases hinc : List.find? (fun q => q.1 = k) inc <;> simp [Option.or, hinc]
    · intro a ha
      have hak : a.1 = k := by simpa using ha
      simp [hak, hp']

/-- C8.  A partial dashboard:update replaces the in-memory snapshot
with the shallow merge of the payload fields over the previous
snapshot plus a timestamp stamped from the payload timestamp or the
current ISO time; every field of the previous snapshot not named in
the payload is unchanged; and neither the bounded-ttl dashboard cache
entry nor the last-known-good entry is rewritten (the whole store,
lastUpdated and the error are untouched). -/
theorem c8_partial_merge (now : ℤ) (nowISO : String) (S P : List (String × Js))
    (s : SyncModel) (hdata : s.data = some (.obj S))
    (hpart : ((Js.obj P).get ("partial")).truthy = true) :
    (∃ M : List (String × Js),
      (handleDashboardUpdate now nowISO (.obj P) s).data = some (.obj M) ∧
      (∀ k : String, k ≠ "timestamp" →
        lookupField M k = (lookupField P k).or (lookupField S k)) ∧
      lookupField M ("timestamp") =
        some (jsOr ((Js.obj P).get ("timestamp")) (.str nowISO))) ∧
    (handleDashboardUpdate now nowISO (.obj P) s).store = s.store ∧
    (handleDashboardUpdate now nowISO (.obj P) s).lastUpdated = s.lastUpdated ∧
    (handleDashboardUpdate now nowISO (.obj P) s).errorMsg = s.errorMsg := by
  have htr : (Js.obj P).truthy = true := rfl
  simp only [handleDashboardUpdate, htr, hpart, if_true, hdata, Option.getD_some,
    Js.fieldsOf, ite_true]
  refine ⟨⟨spreadMerge (spreadMerge S P)
      [(("timestamp"), jsOr ((Js.obj P).get ("timestamp")) (.str nowISO))],
      rfl, ?_, ?_⟩, by trivial, by trivial, by trivial⟩
  · intro k hk
    rw [lookupField_spreadMerge, lookupField_spreadMerge]
    have hts : lookupField
        [(("timestamp"), jsOr ((Js.obj P).get ("timestamp")) (.str nowISO))] k = none := by
      have hne : ¬ ("timestamp" = k) := fun h => hk h.symm
      simp [lookupField, hne]
    rw [hts]
    rfl
  · rw [lookupField_spreadMerge]
    simp [lookupField, Option.or]

/-- Witness for C8: a snapshot holding weather, receiving a partial
update carrying tasks, keeps weather and gains tasks without any
store write. -/
theorem c8_witness :
    (handleDashboardUpdate 7 ("iso")
      (.obj [(("partial"), .bool true), (("tasks"), .arr [.str ("t1")])])
      ⟨some (.obj [(("weather"), .num 42)]), some 5, none, false, Store.empty⟩).store =
        Store.empty ∧
    (∃ M : List (String × Js),
      (handleDashboardUpdate 7 ("iso")
        (.obj [(("partial"), .bool true), (("tasks"), .arr [.str ("t1")])])
        ⟨some (.obj [(("weather"), .num 42)]), some 5, none, false, Store.empty⟩).data =
          some (.obj M) ∧
      lookupField M ("weather") = some (.num 42) ∧
      lookupField M ("tasks") = some (.arr [.str ("t1")])) := by
  have h := c8_partial_merge 7 ("iso") [(("weather"), .num 42)]
    [(("partial"), .bool true), (("tasks"), .arr [.str ("t1")])]
    ⟨some (.obj [(("weather"), .num 42)]), some 5, none, false, Store.empty⟩ rfl rfl
  obtain ⟨⟨M, hM, hlook, _⟩, hstore, _, _⟩ := h
  refine ⟨hstore, M, hM, ?_, ?_⟩
  · exact (hlook ("weather") (by decide)).trans (by rfl)
  · exact (hlook ("tasks") (by decide)).trans (by rfl)

/-! ## Loop invariant shared by the synchronizer claims -/

/-- Every reachable synchronizer loop state has a polling timer
exactly when the channel is not connected, and never more than one
timer. -/
theorem loopReach_invariant :
    ∀ s : SyncLoop, LoopReach s →
      ((s.timers ≠ 0 ↔ s.ws ≠ WSState.connected) ∧ s.timers ≤ 1) := by
  intro s h
  induction h with
  | init w => cases w <;> simp [loopInit]
  | @step s s' e hs hstep ih =>
    cases e with
    | pollTickE =>
      simp only [loopStep] at hstep
      split at hstep
      · simp at hstep
      · have heq := Option.some.inj hstep
        have hpres : s'.timers = s.timers ∧ s'.ws = s.ws := by
          split at heq <;> (rw [← heq]; exact ⟨rfl, rfl⟩)
        rw [hpres.1, hpres.2]
        exact ih
    | wsE ev =>
      simp only [loopStep] at hstep
      cases hns : wsNext s.ws ev with
      | none =>
        rw [hns] at hstep
        simp at hstep
      | some ns =>
        rw [hns] at hstep
        dsimp only at hstep
        by_cases hsame : ns = s.ws
        · rw [if_pos hsame] at hstep
          have heq := Option.some.inj hstep
          rw [← heq]
          exact ih
        · rw [if_neg hsame] at hstep
          have heq := Option.some.inj hstep
          rw [← heq]
          cases ns with
          | connected => simp [handleStateChange]
          | disconnected =>
            constructor
            · simp only [handleStateChange, startPolling]
              split <;> simp_all
            · simp only [handleStateChange, startPolling]
              split
              · exact ih.2
              · omega
          | error =>
            constructor
            · simp only [handleStateChange, startPolling]
              split <;> simp_all
            · simp only [handleStateChange, startPolling]
              split
              · exact ih.2
              · omega
          | connecting =>
            have hwsne : s.ws ≠ WSState.connected := by
              cases ev with
              | connectCall =>
                simp only [wsNext] at hns
                split at hns
                · simp at hns
                · rename_i hcond
                  exact fun hc => hcond (Or.inl hc)
              | openEvt =>
                simp only [wsNext] at hns
                split at hns <;> simp at hns
              | errorEvt =>
                simp only [wsNext] at hns
                split at hns <;> simp at hns
              | closeEvt =>
                simp only [wsNext] at hns
                simp at hns
            constructor
            · simp only [handleStateChange]
              constructor
              · intro _ hc
                cases hc
              · intro _
                exact ih.1.mpr hwsne
            · exact ih.2
    | manualRefresh =>
      simp only [loopStep] at hstep
      have heq := Option.some.inj hstep
      rw [← heq]
      exact ih
    | fetchDone =>
      simp only [loopStep] at hstep
      split at hstep
      · simp at hstep
      · have heq := Option.some.inj hstep
        rw [← heq]
        exact ih

/-! ## Claim C7: polling exactly when not connected -/

/-- C7.  In every reachable synchronizer state the polling timer is
active exactly when the channel is not connected; the reaction to a
transition to connected stops polling (timer count zero) and starts
the resync fetch; and a polling tick issues a fetch only when the
channel is still not connected at tick time. -/
theorem c7_polling_iff_not_connected :
    (∀ s : SyncLoop, LoopReach s → (s.timers ≠ 0 ↔ s.ws ≠ WSState.connected)) ∧
    (∀ t : ℕ, handleStateChange .connected t = (0, true)) ∧
    (∀ s s' : SyncLoop, loopStep s .pollTickE = some s' →
      s'.inFlight = s.inFlight + 1 → s.ws ≠ WSState.connected) := by
  refine ⟨fun s h => (loopReach_invariant s h).1, fun t => rfl, ?_⟩
  intro s s' hstep hinc
  simp only [loopStep] at hstep
  split at hstep
  · simp at hstep
  · have heq := Option.some.inj hstep
    by_cases hws : s.ws ≠ WSState.connected
    · exact hws
    · rw [if_neg hws] at heq
      rw [← heq] at hinc
      omega

/-- Witness for C7 at concrete loop states. -/
theorem c7_witness :
    ((loopInit WSState.disconnected).timers ≠ 0 ↔
      (loopInit WSState.disconnected).ws ≠ WSState.connected) ∧
    handleStateChange .connected 1 = (0, true) ∧
    (SyncLoop.mk WSState.disconnected 1 0).ws ≠ WSState.connected :=
  ⟨c7_polling_iff_not_connected.1 _ (LoopReach.init _),
   c7_polling_iff_not_connected.2.1 1,
   c7_polling_iff_not_connected.2.2 ⟨WSState.disconnected, 1, 0⟩
     ⟨WSState.disconnected, 1, 1⟩ (by decide) rfl⟩

/-! ## Claim C2: fetch-in-flight guard -/

/-- C2 counterexample.  The claim asserts that at most one snapshot
fetch is ever in flight and that a trigger arriving during a fetch is
dropped.  But a loop state with two fetches in flight is reachable
(mount while disconnected, then two polling ticks before either fetch
settles), and a polling tick arriving while one fetch is in flight
starts a second fetch instead of being dropped. -/
theorem c2_counterexample :
    LoopReach ⟨WSState.disconnected, 1, 2⟩ ∧
    loopStep ⟨WSState.disconnected, 1, 1⟩ .pollTickE =
      some ⟨WSState.disconnected, 1, 2⟩ := by
  constructor
  · exact @LoopReach.step (loopInit WSState.disconnected) ⟨WSState.disconnected, 1, 2⟩
      LoopEvent.pollTickE (LoopReach.init WSState.disconnected) (by decide)
  · decide

/-- C2 as amended: fetchData has no in-flight guard.  Every trigger
that fires starts another fetch regardless of fetches already in
flight: a polling tick with the channel down, a manual refresh, and
the resync on the transition to connected each increment the
in-flight count unconditionally; the only duplicate-suppression is on
the polling timer itself, of which at most one ever runs. -/
theorem c2_no_inflight_guard :
    (∀ s : SyncLoop, s.timers ≠ 0 → s.ws ≠ WSState.connected →
      loopStep s .pollTickE = some { s with inFlight := s.inFlight + 1 }) ∧
    (∀ s : SyncLoop, loopStep s .manualRefresh =
      some { s with inFlight := s.inFlight + 1 }) ∧
    (∀ s : SyncLoop, s.ws = WSState.connecting →
      loopStep s (.wsE .openEvt) = some ⟨WSState.connected, 0, s.inFlight + 1⟩) ∧
    (∀ s : SyncLoop, LoopReach s → s.timers ≤ 1) := by
  refine ⟨?_, fun s => rfl, ?_, fun s h => (loopReach_invariant s h).2⟩
  · intro s ht hws
    simp [loopStep, ht, hws]
  · intro s hws
    simp [loopStep, wsNext, hws, handleStateChange]

/-- Witness for C2 as amended at concrete loop states. -/
theorem c2_witness :
    loopStep ⟨WSState.disconnected, 1, 5⟩ .pollTickE =
      some ⟨WSState.disconnected, 1, 6⟩ ∧
    (loopInit WSState.connected).timers ≤ 1 :=
  ⟨c2_no_inflight_guard.1 ⟨WSState.disconnected, 1, 5⟩ (by decide) (by decide),
   c2_no_inflight_guard.2.2.2 _ (LoopReach.init _)⟩

end DashboardUI
